import Mathlib

/-!
# Verification of the multi-source academic search pipeline (src/app.py)

Shallow embedding of the aggregation / deduplication / ranking pipeline of
`app.py`.  Conventions used throughout:

* Python strings are Lean `String`s; `str.strip()` is modelled by `stripChars`
  on the character list (dropping `Char.isWhitespace` characters from both
  ends) and `str.lower()` by mapping `Char.toLower` (ASCII case folding, as in
  Python for the ASCII range).
* Python `float` arithmetic in the ranking formula is modelled by `ℚ`
  (`0.05` becomes `1/20`); the bounds proved are insensitive to the rounding
  of IEEE doubles at these magnitudes.
* Network I/O is made explicit: each adapter takes the decoded provider
  response as a parameter (`HttpOutcome`), and the two key-gated adapters
  additionally return the number of outbound HTTP requests they perform.
* `datetime.datetime.now().year` becomes an explicit `current_year : Int`
  parameter; `str(time.time())`, used only as a fallback id, is modelled by
  the placeholder constant `timePlaceholder`.
* Missing JSON/XML fields are `Option` fields; `dict.get(k, d)` is `Option.getD`.
-/

/-- The canonical normalized article record built by every provider adapter
in `app.py` (the dict literals with keys `id`, `title`, `authors`, `year`,
`source`, `citations`, `url`, `abstract`, `venue`); the aggregator later adds
`topic` / `search_strategy`, and the ranker adds `relevance_score`. -/
structure Article where
  id : String
  title : String
  authors : List String
  year : Int
  source : String
  citations : Int
  url : String
  abstract : String
  venue : String
  topic : String := ""
  search_strategy : String := ""
  relevance_score : ℚ := 0
deriving DecidableEq, Repr

/-- Python `str.strip()` on a character list: whitespace removed from both
ends. -/
def stripChars (l : List Char) : List Char :=
  ((l.dropWhile Char.isWhitespace).reverse.dropWhile Char.isWhitespace).reverse

/-- Python `str.strip()` on a `String`. -/
def pyStrip (s : String) : String :=
  String.mk (stripChars s.toList)

/-- Python truthiness of an optional string configuration value
(`if not KEY:` — `None` and `""` are falsy). -/
def pyTruthyOpt : Option String → Bool
  | none => false
  | some s => !(s == "")

/-- Placeholder for `str(time.time())` (wall-clock time is outside the
embedding; the value is only ever used as an opaque fallback id). -/
def timePlaceholder : String := "time"

/-- Python substring test `needle in hay` on character lists:
`startsWithChars n h` is `h.startswith(n)`. -/
def startsWithChars : List Char → List Char → Bool
  | [], _ => true
  | _ :: _, [] => false
  | a :: as, b :: bs => a == b && startsWithChars as bs

/-- Python substring test `needle in hay` on character lists. -/
def isInfixChars (needle : List Char) : List Char → Bool
  | [] => startsWithChars needle []
  | b :: bs => startsWithChars needle (b :: bs) || isInfixChars needle bs

/-! ## Deduplicator (`deduplicate_articles`, app.py lines 965-1007) -/

/-- `article.get('title', '').lower().strip()` — the normalized title used by
the duplicate check. -/
def normTitle (a : Article) : List Char :=
  stripChars (a.title.toList.map Char.toLower)

/-- `article.get('url', '').strip()`. -/
def trimmedUrl (a : Article) : List Char :=
  stripChars a.url.toList

/-- `article.get('id', '').strip()`. -/
def trimmedId (a : Article) : List Char :=
  stripChars a.id.toList

/-- The three `seen_*` sets maintained by `deduplicate_articles`
(Python `set`s are modelled as lists; only membership is used). -/
structure DedupState where
  seen_titles : List (List Char)
  seen_urls : List (List Char)
  seen_ids : List (List Char)

/-- One iteration of the inner `for seen_title in seen_titles` loop body:
`title and seen_title and (title == seen_title or (len > 20 and len > 20 and
title in seen_title) or (... seen_title in title))`. -/
def titleMatch (t s : List Char) : Bool :=
  !(t == []) && !(s == []) &&
    (t == s
      || (decide (20 < t.length) && decide (20 < s.length) && isInfixChars t s)
      || (decide (20 < t.length) && decide (20 < s.length) && isInfixChars s t))

/-- The complete `is_duplicate` computation of `deduplicate_articles`:
the title loop, then `(url and url in seen_urls) or (article_id and
article_id in seen_ids)`. -/
def isDuplicateB (st : DedupState) (a : Article) : Bool :=
  st.seen_titles.any (fun s => titleMatch (normTitle a) s)
    || (!(trimmedUrl a == []) && st.seen_urls.contains (trimmedUrl a))
    || (!(trimmedId a == []) && st.seen_ids.contains (trimmedId a))

/-- Updates the seen sets when an article is kept: the title is always added,
the url and id only when non-empty (`if url: ...`, `if article_id: ...`). -/
def pushSeen (st : DedupState) (a : Article) : DedupState :=
  { seen_titles := normTitle a :: st.seen_titles
    seen_urls := if trimmedUrl a == [] then st.seen_urls else trimmedUrl a :: st.seen_urls
    seen_ids := if trimmedId a == [] then st.seen_ids else trimmedId a :: st.seen_ids }

/-- The scan of `deduplicate_articles` over the input list, carrying the seen
sets: drop excluded ids, compute `is_duplicate`, keep only non-duplicates
with non-empty normalized title and url. -/
def dedupGo (saved : List String) (st : DedupState) : List Article → List Article
  | [] => []
  | a :: rest =>
    if a.id ∈ saved then dedupGo saved st rest
    else if isDuplicateB st a = false ∧ normTitle a ≠ [] ∧ trimmedUrl a ≠ [] then
      a :: dedupGo saved (pushSeen st a) rest
    else dedupGo saved st rest

/-- `deduplicate_articles(articles, saved_articles_ids)` (app.py 965-1007). -/
def deduplicate_articles (articles : List Article) (saved_articles_ids : List String) :
    List Article :=
  dedupGo saved_articles_ids ⟨[], [], []⟩ articles

/-! ## Ranker (`handle_search`, app.py lines 1250-1258) -/

/-- `recency_factor = max(0.5, 1.0 - (age * 0.05))` with
`age = current_year - year`; the float constants `0.5` and `0.05` are the
rationals `1/2` and `1/20`. -/
def recency_factor (current_year year : Int) : ℚ :=
  max (1/2 : ℚ) (1 - ((current_year - year : Int) : ℚ) * (1/20))

/-- The body of the scoring loop:
`article['relevance_score'] = citations * recency_factor`. -/
def score_article (current_year : Int) (a : Article) : Article :=
  { a with relevance_score := (a.citations : ℚ) * recency_factor current_year a.year }

/-- Stable descending insertion relative to `relevance_score`: an element is
placed after every earlier element whose score is `≥` its own.  This models
the contract of CPython's `list.sort(key=..., reverse=True)` (a stable sort;
`reverse=True` keeps equal-keyed elements in their original order). -/
def insertScored (a : Article) : List Article → List Article
  | [] => [a]
  | b :: bs =>
    if b.relevance_score ≤ a.relevance_score then a :: b :: bs
    else b :: insertScored a bs

/-- Stable descending sort by `relevance_score`, modelling
`unique_articles.sort(key=lambda x: x.get('relevance_score', 0), reverse=True)`. -/
def sortScored : List Article → List Article
  | [] => []
  | a :: rest => insertScored a (sortScored rest)

/-- The whole ranking step of `handle_search`: score every deduplicated
article, then sort descending by score. -/
def rank_articles (current_year : Int) (l : List Article) : List Article :=
  sortScored (l.map (score_article current_year))

/-- The ranked unique articles returned by `handle_search`:
`deduplicate_articles` followed by scoring and sorting (app.py 1248-1258). -/
def ranked_unique_articles (arts : List Article) (saved : List String)
    (current_year : Int) : List Article :=
  rank_articles current_year (deduplicate_articles arts saved)

/-! ## Query strategy expander (`get_ai_search_strategies`, app.py 885-928) -/

/-- One `{query, rationale, topic}` strategy record. -/
structure Strategy where
  query : String
  rationale : String
  topic : String
deriving DecidableEq, Repr

/-- The possible outcomes of the Gemini call and of parsing its response text:
an exception during generation (network error, bad credential at call time),
a `json.JSONDecodeError`, a parsed JSON value that is not a list, or a parsed
JSON list of strategy objects. -/
inductive AIOutcome where
  | error
  | unparseable
  | parsedNonList
  | parsedList (xs : List Strategy)
deriving DecidableEq, Repr

/-- `get_ai_search_strategies(research_question, api_key)`: missing key gives
the direct-search fallback; a decode error, a non-list response, or any other
exception gives the AI-failure fallback; a parsed JSON list is returned
verbatim. -/
def get_ai_search_strategies (research_question : String) (api_key : Option String)
    (outcome : AIOutcome) : List Strategy :=
  if pyTruthyOpt api_key = false then
    [⟨research_question, "Busca direta.", "Busca Direta"⟩]
  else
    match outcome with
    | .parsedList xs => xs
    | .parsedNonList => [⟨research_question, "Falha na IA.", "Busca Direta"⟩]
    | .unparseable => [⟨research_question, "Falha na IA.", "Busca Direta"⟩]
    | .error => [⟨research_question, "Falha na IA.", "Busca Direta"⟩]

/-! ## Strategy fan-out of `handle_search` (app.py 1230-1246) -/

/-- The provenance stamping inside the strategy loop:
`article['topic'] = rationale; article['search_strategy'] = topic`
(note the crossed field names relative to the strategy record). -/
def stamp_strategy (s : Strategy) (a : Article) : Article :=
  { a with topic := s.rationale, search_strategy := s.topic }

/-- The `for strategy in strategies` loop of `handle_search`: a strategy with
an empty (stripped) query is skipped; otherwise `search_all_sources` — whose
collected per-strategy result list is the parameter `results` — is run and
every collected article is stamped with the strategy's rationale/topic.  The
stamped lists are concatenated into `all_found_articles`. -/
def run_strategies (results : Strategy → List Article) : List Strategy → List Article
  | [] => []
  | s :: rest =>
    if stripChars s.query.toList = [] then run_strategies results rest
    else (results s).map (stamp_strategy s) ++ run_strategies results rest

/-! ## Provider adapters

Each adapter receives the decoded provider response as a parameter; the
surrounding `try/except` that turns any request/parse failure into `[]` is
the `HttpOutcome.failure` case. -/

/-- Result of one guarded HTTP round trip: `failure` covers timeouts, non-2xx
statuses raised by `raise_for_status`, and body-parse errors. -/
inductive HttpOutcome (α : Type) where
  | failure
  | success (data : α)
deriving DecidableEq, Repr

/-- One author object of a Semantic Scholar item (`a.get('name', 'N/A')`). -/
structure SSAuthor where
  name : Option String
deriving DecidableEq, Repr

/-- One item of the Semantic Scholar `data` array; the fields read by
`search_semantic_scholar` (app.py 107-128). -/
structure SSItem where
  paperId : Option String
  title : Option String
  authors : Option (List SSAuthor)
  year : Option Int
  venue : Option String
  citationCount : Option Int
  url : Option String
  abstract : Option String
deriving DecidableEq, Repr

/-- The loop body of `search_semantic_scholar`: an item is kept only when
`year` is truthy (present and non-zero) and `int(year) >= min_year` and
`citations >= min_citations`; `none` means the item was filtered out. -/
def ss_process (min_year min_citations : Int) (item : SSItem) : Option Article :=
  let citations := item.citationCount.getD 0
  match item.year with
  | none => none
  | some y =>
    if y ≠ 0 ∧ min_year ≤ y ∧ min_citations ≤ citations then
      some
        { id := "ss_" ++ item.paperId.getD ""
          title := item.title.getD "Título não disponível"
          authors := (item.authors.getD []).map (fun a => a.name.getD "N/A")
          year := y
          source := "Semantic Scholar (" ++ item.venue.getD "N/A" ++ ")"
          citations := citations
          url := item.url.getD ""
          abstract := item.abstract.getD "Resumo não disponível"
          venue := item.venue.getD "N/A" }
    else none

/-- `search_semantic_scholar(query, min_year, min_citations)` (app.py 90-138). -/
def search_semantic_scholar (min_year min_citations : Int)
    (resp : HttpOutcome (List SSItem)) : List Article :=
  match resp with
  | .failure => []
  | .success items => items.filterMap (ss_process min_year min_citations)

/-- One author object of a CrossRef item (`given` / `family`). -/
structure CRAuthor where
  given : Option String
  family : Option String
deriving DecidableEq, Repr

/-- One item of the CrossRef `message.items` array; `created_date_parts`
models `item.get('created', {}).get('date-parts', [[0]])` (the `[[0]]`
default applies when either level is missing), `container_title` models the
`container-title` key, `is_referenced_by_count` the `is-referenced-by-count`
key. -/
structure CRItem where
  created_date_parts : Option (List (List Int))
  author : Option (List CRAuthor)
  title : Option (List String)
  container_title : Option (List String)
  DOI : Option String
  URL : Option String
  is_referenced_by_count : Option Int
deriving DecidableEq, Repr

/-- The loop body of `search_crossref` (app.py 158-186):
`year_part = date_parts[0][0] if date_parts and date_parts[0] else 0`, keep
only when `year_part >= min_year`. -/
def cr_process (min_year : Int) (item : CRItem) : Option Article :=
  let date_parts := item.created_date_parts.getD [[0]]
  let year_part : Int :=
    match date_parts with
    | (y :: _) :: _ => y
    | _ => 0
  if min_year ≤ year_part then
    let authors :=
      (item.author.getD []).map (fun a => pyStrip (a.given.getD "" ++ " " ++ a.family.getD ""))
    let title :=
      match item.title with
      | some (t :: _) => t
      | _ => "Título não disponível"
    let journal_info :=
      match item.container_title with
      | some (j :: _) => j
      | _ => "N/A"
    some
      { id := "cr_" ++ item.DOI.getD ""
        title := title
        authors := authors
        year := year_part
        source := "CrossRef (" ++ journal_info ++ ")"
        citations := item.is_referenced_by_count.getD 0
        url := item.URL.getD ""
        abstract := "Resumo não disponível no CrossRef."
        venue := journal_info }
  else none

/-- `search_crossref(query, min_year)` (app.py 140-196). -/
def search_crossref (min_year : Int) (resp : HttpOutcome (List CRItem)) : List Article :=
  match resp with
  | .failure => []
  | .success items => items.filterMap (cr_process min_year)

/-- `l.all Char.isDigit`. -/
def allDigits (l : List Char) : Bool := l.all Char.isDigit

/-- Decimal value of a digit list. -/
def digitsToNat (l : List Char) : Nat := l.foldl (fun n c => n * 10 + (c.toNat - 48)) 0

/-- Model of `datetime.strptime(text[:10], '%Y-%m-%d').year`: the first ten
characters must be four digits, a dash, two digits (a month in 1..12), a
dash, and two digits (a day in 1..31; the per-month day count of the real
parser is coarsened to 31). `none` models the `except` branch. -/
def strptimeYear (s : String) : Option Int :=
  match s.toList.take 10 with
  | [y1, y2, y3, y4, h1, m1, m2, h2, d1, d2] =>
    if allDigits [y1, y2, y3, y4] && h1 == '-' && allDigits [m1, m2] && h2 == '-' &&
        allDigits [d1, d2] &&
        decide (1 ≤ digitsToNat [m1, m2]) && decide (digitsToNat [m1, m2] ≤ 12) &&
        decide (1 ≤ digitsToNat [d1, d2]) && decide (digitsToNat [d1, d2] ≤ 31) then
      some (digitsToNat [y1, y2, y3, y4])
    else none
  | _ => none

/-- One `atom:entry` of the arXiv feed; each field is the text of the
corresponding child element (`none` when the element is missing).
`authors` holds each `atom:author`'s optional `atom:name` text; `category`
is the `term` attribute of the first `atom:category` element. -/
structure ArxivEntry where
  title : Option String
  authors : List (Option String)
  published : Option String
  summary : Option String
  idUrl : Option String
  category : Option String
deriving DecidableEq, Repr

/-- The year resolved for an arXiv entry: parse the first ten characters of
`atom:published` as a date, defaulting to the current calendar year when the
element is missing or unparseable (app.py 468-475). -/
def arxivYear (current_year : Int) (e : ArxivEntry) : Int :=
  match e.published with
  | none => current_year
  | some s => (strptimeYear s).getD current_year

/-- The year `search_arxiv` managed to actually resolve from the entry
(`none` when the published element is missing or fails to parse). -/
def arxivResolvedYear (e : ArxivEntry) : Option Int :=
  match e.published with
  | none => none
  | some s => strptimeYear s

/-- `(s.splitOn "/").getLastD ""` — Python `url.split('/')[-1]`. -/
def lastSlashComponent (s : String) : String :=
  (s.splitOn "/").getLastD ""

/-- The loop body of `search_arxiv` (app.py 456-500): resolve the year (with
current-year default), skip when `year < min_year`, otherwise build the
article. -/
def arxiv_process (current_year min_year : Int) (e : ArxivEntry) : Option Article :=
  let year := arxivYear current_year e
  if year < min_year then none
  else
    let title :=
      match e.title with
      | some t => pyStrip t
      | none => "Título não disponível"
    let url := e.idUrl.getD ""
    some
      { id := "arxiv_" ++ (if url = "" then timePlaceholder else lastSlashComponent url)
        title := title
        authors := e.authors.filterMap (Option.map pyStrip)
        year := year
        source := "arXiv (" ++ e.category.getD "N/A" ++ ")"
        citations := 0
        url := url
        abstract := (e.summary.map pyStrip).getD "Resumo não disponível"
        venue := "arXiv Preprint" }

/-- `search_arxiv(query, min_year)` (app.py 432-511). -/
def search_arxiv (current_year min_year : Int) (resp : HttpOutcome (List ArxivEntry)) :
    List Article :=
  match resp with
  | .failure => []
  | .success entries => entries.filterMap (arxiv_process current_year min_year)

/-- A JSON value that `search_web_of_science` probes both as a plain string
and as a list of strings (the `title` and author fields). -/
inductive StrOrList where
  | str (v : String)
  | list (vs : List String)
deriving DecidableEq, Repr

/-- One Web of Science record; one `Option` field per dictionary key probed
by the loop body (app.py 246-294), including the alternate-casing fallbacks. -/
structure WosItem where
  title : Option StrOrList
  Title : Option StrOrList
  authors : Option StrOrList
  Authors : Option StrOrList
  author : Option StrOrList
  Author : Option StrOrList
  publishedYear : Option Int
  year : Option Int
  Year : Option Int
  citationCount : Option Int
  citations : Option Int
  Citations : Option Int
  journal : Option String
  Journal : Option String
  venue : Option String
  abstract : Option String
  Abstract : Option String
  doi : Option String
  DOI : Option String
  url : Option String
  id : Option String
deriving DecidableEq, Repr

/-- `authors = [str(a) for a in data]` when the first present author field is
a list, `[data]` when it is a string. -/
def wosAuthors : StrOrList → List String
  | .list vs => vs
  | .str v => [v]

/-- The loop body of `search_web_of_science` (app.py 246-294): `.get` chains
with both casings, year/citations defaults, and the
`year < min_year or citations < min_citations` filter. -/
def wos_process (current_year min_year min_citations : Int) (item : WosItem) :
    Option Article :=
  let title :=
    match item.title.getD (item.Title.getD (.str "Título não disponível")) with
    | .str v => v
    | .list [] => "Título não disponível"
    | .list (v :: _) => v
  let authors :=
    match item.authors with
    | some v => wosAuthors v
    | none =>
      match item.Authors with
      | some v => wosAuthors v
      | none =>
        match item.author with
        | some v => wosAuthors v
        | none =>
          match item.Author with
          | some v => wosAuthors v
          | none => []
  let year := item.publishedYear.getD (item.year.getD (item.Year.getD current_year))
  let citations := item.citationCount.getD (item.citations.getD (item.Citations.getD 0))
  if year < min_year ∨ citations < min_citations then none
  else
    let venue := item.journal.getD (item.Journal.getD (item.venue.getD "N/A"))
    let abstract :=
      item.abstract.getD (item.Abstract.getD "Resumo não disponível na Web of Science.")
    let doi := item.doi.getD (item.DOI.getD "")
    some
      { id := "wos_" ++ (if doi = "" then item.id.getD timePlaceholder else doi)
        title := title
        authors := authors
        year := year
        source := "Web of Science (" ++ venue ++ ")"
        citations := citations
        url := if doi = "" then item.url.getD "" else "https://doi.org/" ++ doi
        abstract := abstract
        venue := venue }

/-- The shape of the parsed 200-response: which of the three recognized keys
holds the record list (`documents` / `records` / `Data.Records`), or an
unrecognized format (which makes the loop continue to the next endpoint). -/
inductive WosData where
  | documents (items : List WosItem)
  | records (items : List WosItem)
  | dataRecords (items : List WosItem)
  | unrecognized
deriving DecidableEq, Repr

/-- Extracting the record list from a recognized 200-response body. -/
def wosExtract : WosData → Option (List WosItem)
  | .documents items => some items
  | .records items => some items
  | .dataRecords items => some items
  | .unrecognized => none

/-- What one endpoint attempt produced: a request exception (timeout or
other), an HTTP 200 with a decoded body, or a non-200 status code. -/
inductive WosResponse where
  | exn
  | ok (data : WosData)
  | httpStatus (code : Nat)
deriving DecidableEq, Repr

/-- The three candidate Web of Science endpoints tried in order. -/
def wosEndpoints : List String :=
  ["https://api.clarivate.com/apis/wos-starter/v1/documents",
   "https://api.clarivate.com/api/wos",
   "https://wos-api.clarivate.com/api/wos"]

/-- The `for endpoint in endpoints` loop (app.py 228-325), returning the
articles together with the number of outbound requests performed: a 200 with
a recognized format returns immediately; 401 breaks out of the loop; 429,
512, other statuses, unrecognized formats and request exceptions continue
with the next endpoint. -/
def wosLoop (current_year min_year min_citations : Int) :
    List WosResponse → List Article × Nat
  | [] => ([], 0)
  | r :: rest =>
    match r with
    | .ok data =>
      match wosExtract data with
      | some items =>
        (items.filterMap (wos_process current_year min_year min_citations), 1)
      | none =>
        let p := wosLoop current_year min_year min_citations rest
        (p.1, p.2 + 1)
    | .httpStatus code =>
      if code = 401 then ([], 1)
      else
        let p := wosLoop current_year min_year min_citations rest
        (p.1, p.2 + 1)
    | .exn =>
      let p := wosLoop current_year min_year min_citations rest
      (p.1, p.2 + 1)

/-- `search_web_of_science(query, min_year, min_citations)` (app.py 198-329):
with no API key configured the function returns `[]` before any request;
otherwise it walks the candidate endpoints.  `responses` are the outcomes the
network would give to the successive endpoint attempts; the second component
counts the outbound HTTP requests actually made. -/
def search_web_of_science (wos_api_key : Option String)
    (current_year min_year min_citations : Int) (responses : List WosResponse) :
    List Article × Nat :=
  if pyTruthyOpt wos_api_key = false then ([], 0)
  else wosLoop current_year min_year min_citations (responses.take wosEndpoints.length)

/-- One author object of a CORE item. -/
structure CoreAuthor where
  name : Option String
deriving DecidableEq, Repr

/-- One journal object of a CORE item. -/
structure CoreJournal where
  title : Option String
deriving DecidableEq, Repr

/-- One item of the CORE `results` array (app.py 732-772). -/
structure CoreItem where
  title : Option String
  authors : Option (List CoreAuthor)
  yearPublished : Option Int
  abstract : Option String
  downloadUrl : Option String
  sourceFulltextUrls : Option (List String)
  journals : Option (List CoreJournal)
  id : Option String
deriving DecidableEq, Repr

/-- The loop body of `search_core`: `yearPublished` truthiness (zero and
missing both fall back to the current year), the `year < min_year` filter,
and the `downloadUrl` / `sourceFulltextUrls[0]` url fallback chain. -/
def core_process (current_year min_year : Int) (item : CoreItem) : Option Article :=
  let year : Int :=
    match item.yearPublished with
    | some y => if y = 0 then current_year else y
    | none => current_year
  if year < min_year then none
  else
    let authors :=
      (item.authors.getD []).filterMap fun a =>
        let n := a.name.getD ""
        if n = "" then none else some n
    let url :=
      match item.downloadUrl with
      | some u => u
      | none =>
        match item.sourceFulltextUrls with
        | some (u :: _) => u
        | _ => ""
    let journal :=
      match item.journals with
      | some (j :: _) => j.title.getD "N/A"
      | _ => "N/A"
    some
      { id := "core_" ++ item.id.getD timePlaceholder
        title := item.title.getD "Título não disponível"
        authors := authors
        year := year
        source := "CORE (" ++ journal ++ ")"
        citations := 0
        url := url
        abstract := item.abstract.getD "Resumo não disponível no CORE."
        venue := journal }

/-- `search_core(query, min_year)` (app.py 702-783): with no API key the
function returns `[]` before any request; otherwise exactly one request is
made and a failure yields `[]`.  The second component counts outbound HTTP
requests. -/
def search_core (core_api_key : Option String) (current_year min_year : Int)
    (resp : HttpOutcome (List CoreItem)) : List Article × Nat :=
  if pyTruthyOpt core_api_key = false then ([], 0)
  else
    match resp with
    | .failure => ([], 1)
    | .success items => (items.filterMap (core_process current_year min_year), 1)

/-! ## Lemmas about the deduplicator -/

lemma titleMatch_self {t : List Char} (h : t ≠ []) : titleMatch t t = true := by
  simp [titleMatch, h]

lemma isDuplicateB_of_mem_titles {st : DedupState} {a : Article}
    (h : normTitle a ∈ st.seen_titles) (hne : normTitle a ≠ []) :
    isDuplicateB st a = true := by
  simp only [isDuplicateB, Bool.or_eq_true, List.any_eq_true]
  exact Or.inl (Or.inl ⟨normTitle a, h, titleMatch_self hne⟩)

lemma isDuplicateB_of_mem_urls {st : DedupState} {a : Article}
    (h : trimmedUrl a ∈ st.seen_urls) (hne : trimmedUrl a ≠ []) :
    isDuplicateB st a = true := by
  simp only [isDuplicateB, Bool.or_eq_true]
  exact Or.inl (Or.inr (by simp [hne, h]))

lemma isDuplicateB_of_mem_ids {st : DedupState} {a : Article}
    (h : trimmedId a ∈ st.seen_ids) (hne : trimmedId a ≠ []) :
    isDuplicateB st a = true := by
  simp only [isDuplicateB, Bool.or_eq_true]
  exact Or.inr (by simp [hne, h])

lemma pushSeen_titles_sub {st : DedupState} {a : Article} :
    st.seen_titles ⊆ (pushSeen st a).seen_titles := by
  simp only [pushSeen]
  exact fun x hx => List.mem_cons_of_mem _ hx

lemma pushSeen_urls_sub {st : DedupState} {a : Article} :
    st.seen_urls ⊆ (pushSeen st a).seen_urls := by
  simp only [pushSeen]
  split
  · exact fun x hx => hx
  · exact fun x hx => List.mem_cons_of_mem _ hx

lemma pushSeen_ids_sub {st : DedupState} {a : Article} :
    st.seen_ids ⊆ (pushSeen st a).seen_ids := by
  simp only [pushSeen]
  split
  · exact fun x hx => hx
  · exact fun x hx => List.mem_cons_of_mem _ hx

/-- Every article produced by the dedup scan has a non-empty normalized title
and url, an id outside the excluded set, and is fresh relative to the seen
sets the scan started from. -/
lemma dedupGo_mem_spec {saved : List String} {st : DedupState} {l : List Article}
    {b : Article} (hb : b ∈ dedupGo saved st l) :
    normTitle b ≠ [] ∧ trimmedUrl b ≠ [] ∧ b.id ∉ saved ∧
    normTitle b ∉ st.seen_titles ∧ trimmedUrl b ∉ st.seen_urls ∧
    (trimmedId b ≠ [] → trimmedId b ∉ st.seen_ids) := by
  induction l generalizing st with
  | nil => simp [dedupGo] at hb
  | cons a rest ih =>
    rw [dedupGo] at hb
    split at hb
    · exact ih hb
    · rename_i hsaved
      split at hb
      · rename_i hkeep
        rcases List.mem_cons.mp hb with rfl | hb'
        · obtain ⟨hdup, htne, hune⟩ := hkeep
          refine ⟨htne, hune, hsaved, ?_, ?_, ?_⟩
          · intro hmem
            rw [isDuplicateB_of_mem_titles hmem htne] at hdup
            exact Bool.noConfusion hdup
          · intro hmem
            rw [isDuplicateB_of_mem_urls hmem hune] at hdup
            exact Bool.noConfusion hdup
          · intro hidne hmem
            rw [isDuplicateB_of_mem_ids hmem hidne] at hdup
            exact Bool.noConfusion hdup
        · obtain ⟨h1, h2, h3, h4, h5, h6⟩ := ih hb'
          exact ⟨h1, h2, h3, fun h => h4 (pushSeen_titles_sub h),
            fun h => h5 (pushSeen_urls_sub h), fun hne h => h6 hne (pushSeen_ids_sub h)⟩
      · exact ih hb

/-- Any two distinct articles surviving one dedup scan differ in normalized
title, in raw url, and — whenever either trimmed id is non-empty — in raw id. -/
lemma dedupGo_pairwise (saved : List String) (st : DedupState) (l : List Article) :
    List.Pairwise
      (fun a b => normTitle a ≠ normTitle b ∧ a.url ≠ b.url ∧
        ((trimmedId a ≠ [] ∨ trimmedId b ≠ []) → a.id ≠ b.id))
      (dedupGo saved st l) := by
  induction l generalizing st with
  | nil => simp [dedupGo]
  | cons a rest ih =>
    rw [dedupGo]
    split
    · exact ih st
    · split
      · rename_i hkeep
        obtain ⟨hdup, htne, hune⟩ := hkeep
        refine List.Pairwise.cons ?_ (ih _)
        intro b hb
        obtain ⟨hb1, hb2, _, hb4, hb5, hb6⟩ := dedupGo_mem_spec hb
        refine ⟨?_, ?_, ?_⟩
        · intro he
          exact hb4 (by rw [← he]; simp [pushSeen])
        · intro he
          have htrim : trimmedUrl b = trimmedUrl a := by
            unfold trimmedUrl; rw [he]
          apply hb5
          rw [htrim]
          simp only [pushSeen]
          rw [if_neg (by simpa using hune)]
          exact List.mem_cons_self _ _
        · intro _ he
          have htrim : trimmedId b = trimmedId a := by
            unfold trimmedId; rw [he]
          have hane : trimmedId a ≠ [] := by
            intro hnil
            rcases ‹trimmedId a ≠ [] ∨ trimmedId b ≠ []› with h | h
            · exact h hnil
            · exact h (htrim.trans hnil)
          apply hb6 (htrim ▸ hane)
          rw [htrim]
          simp only [pushSeen]
          rw [if_neg (by simpa using hane)]
          exact List.mem_cons_self _ _
      · exact ih st

/-- One dedup scan is idempotent from any starting state. -/
lemma dedupGo_idem (saved : List String) (st : DedupState) (l : List Article) :
    dedupGo saved st (dedupGo saved st l) = dedupGo saved st l := by
  induction l generalizing st with
  | nil => simp [dedupGo]
  | cons a rest ih =>
    rw [dedupGo]
    split
    · exact ih st
    · rename_i hsaved
      split
      · rename_i hkeep
        rw [dedupGo, if_neg hsaved, if_pos hkeep]
        exact congrArg _ (ih (pushSeen st a))
      · exact ih st

/-! ## Whitespace lemmas bridging `strip` and `lower` -/

lemma forall_mem_dropWhile_iff (p : Char → Bool) (l : List Char) :
    (∀ c ∈ l.dropWhile p, p c) ↔ ∀ c ∈ l, p c := by
  induction l with
  | nil => simp
  | cons a l ih =>
    by_cases h : p a
    · simp [List.dropWhile_cons, h, ih]
    · simp [List.dropWhile_cons, h]

lemma stripChars_eq_nil_iff (l : List Char) :
    stripChars l = [] ↔ ∀ c ∈ l, c.isWhitespace := by
  unfold stripChars
  rw [List.reverse_eq_nil_iff, List.dropWhile_eq_nil_iff]
  simp only [List.mem_reverse]
  exact forall_mem_dropWhile_iff _ l

lemma toLower_eq_self_of_isWhitespace {c : Char} (h : c.isWhitespace = true) :
    c.toLower = c := by
  simp only [Char.isWhitespace, Bool.or_eq_true, decide_eq_true_eq] at h
  rcases h with ((h | h) | h) | h <;> subst h <;> decide

lemma normTitle_eq_nil_of_strip_nil {a : Article} (h : stripChars a.title.toList = []) :
    normTitle a = [] := by
  unfold normTitle
  have hall := (stripChars_eq_nil_iff _).mp h
  have hmap : a.title.toList.map Char.toLower = a.title.toList := by
    calc a.title.toList.map Char.toLower
        = a.title.toList.map id :=
          List.map_congr_left (fun c hc => toLower_eq_self_of_isWhitespace (hall c hc))
      _ = a.title.toList := List.map_id _
  rw [hmap]
  exact h

/-! ## Claim C1 -/

/-- C1 (counterexample): the claim "no two articles in the output of
`deduplicate_articles` have equal `id` strings, equal `url` strings, or
titles equal after lower-casing and trimming (including the case where both
ids are the empty string)" is false: two articles with distinct titles and
urls but both with the empty `id` both survive, because an empty trimmed id
is never added to `seen_ids` and the id comparison is skipped for falsy ids. -/
theorem C1_counterexample :
    ¬ List.Pairwise
        (fun a b => a.id ≠ b.id ∧ a.url ≠ b.url ∧ normTitle a ≠ normTitle b)
        (deduplicate_articles
          [{ id := "", title := "t1", authors := [], year := 2020, source := "s",
             citations := 0, url := "u1", abstract := "", venue := "" },
           { id := "", title := "t2", authors := [], year := 2020, source := "s",
             citations := 0, url := "u2", abstract := "", venue := "" }] []) := by
  decide

/-- C1 (amended): in the output of `deduplicate_articles`, no two articles
have titles equal after lower-casing and trimming, no two have equal `url`
strings, and no two have equal `id` strings unless both ids trim to the
empty string. -/
theorem C1_dedup_output_pairwise_distinct (arts : List Article) (saved : List String) :
    List.Pairwise
      (fun a b => normTitle a ≠ normTitle b ∧ a.url ≠ b.url ∧
        ((trimmedId a ≠ [] ∨ trimmedId b ≠ []) → a.id ≠ b.id))
      (deduplicate_articles arts saved) :=
  dedupGo_pairwise saved ⟨[], [], []⟩ arts

/-! ## Claim C5 -/

/-- C5: `deduplicate_articles` is idempotent — applying it to its own output
with the same excluded-id set returns that output unchanged. -/
theorem C5_deduplicate_idempotent (arts : List Article) (saved : List String) :
    deduplicate_articles (deduplicate_articles arts saved) saved =
      deduplicate_articles arts saved :=
  dedupGo_idem saved ⟨[], [], []⟩ arts

/-! ## Claim C6 -/

/-- C6: no article whose `id` is in the excluded-id set appears in the
output of `deduplicate_articles`. -/
theorem C6_excluded_ids_never_returned (arts : List Article) (saved : List String)
    (a : Article) (ha : a ∈ deduplicate_articles arts saved) : a.id ∉ saved :=
  (dedupGo_mem_spec ha).2.2.1

/-- Witness for C6 at a concrete input. -/
theorem C6_witness :
    ({ id := "fresh", title := "t", authors := [], year := 2020, source := "s",
       citations := 0, url := "u", abstract := "", venue := "" } : Article).id ∉
      ["savedid"] :=
  C6_excluded_ids_never_returned
    [{ id := "fresh", title := "t", authors := [], year := 2020, source := "s",
       citations := 0, url := "u", abstract := "", venue := "" }]
    ["savedid"] _ (by decide)

/-! ## Claim C7 -/

/-- C7: every article whose title or url is empty after trimming is absent
from the output of `deduplicate_articles`, even when it duplicates nothing. -/
theorem C7_empty_title_or_url_absent (arts : List Article) (saved : List String)
    (a : Article)
    (h : stripChars a.title.toList = [] ∨ stripChars a.url.toList = []) :
    a ∉ deduplicate_articles arts saved := by
  intro hmem
  obtain ⟨h1, h2, _, _, _, _⟩ := dedupGo_mem_spec hmem
  rcases h with h | h
  · exact h1 (normTitle_eq_nil_of_strip_nil h)
  · exact h2 h

/-- Witness for C7 at a concrete input: a whitespace-only title keeps the
article out of the output. -/
theorem C7_witness :
    ({ id := "x", title := "   ", authors := [], year := 2020, source := "s",
       citations := 3, url := "u", abstract := "", venue := "" } : Article) ∉
      deduplicate_articles
        [{ id := "x", title := "   ", authors := [], year := 2020, source := "s",
           citations := 3, url := "u", abstract := "", venue := "" }] [] :=
  C7_empty_title_or_url_absent _ _ _ (Or.inl (by decide))

/-! ## Claim C3 -/

/-- C3 (counterexample): the claim that the recency factor lies in
`[0.5, 1.0]` including when the article's year exceeds the current year is
false: for `current_year = 2025` and `year = 2026` (age `= -1`) the formula
`max(0.5, 1.0 - age*0.05)` yields `21/20 > 1`. -/
theorem C3_counterexample :
    recency_factor 2025 2026 = 21 / 20 ∧ ¬ recency_factor 2025 2026 ≤ 1 := by
  constructor
  · norm_num [recency_factor]
  · norm_num [recency_factor]

/-- C3 (amended): for every article whose year does not exceed the current
year (age `≥ 0`) the recency factor lies in `[0.5, 1.0]`; when the year
exceeds the current year (age `< 0`) the factor is `1 - age/20`, which is
strictly greater than `1` (the formula is not clamped above). -/
theorem C3_recency_factor_bounds (current_year year : Int) :
    (year ≤ current_year →
      1 / 2 ≤ recency_factor current_year year ∧ recency_factor current_year year ≤ 1)
    ∧ (current_year < year → 1 < recency_factor current_year year) := by
  unfold recency_factor
  constructor
  · intro h
    refine ⟨le_max_left _ _, ?_⟩
    have hage : (0 : ℚ) ≤ ((current_year - year : Int) : ℚ) := by
      exact_mod_cast Int.sub_nonneg.mpr h
    rw [max_le_iff]
    constructor
    · norm_num
    · nlinarith
  · intro h
    have hage' : (current_year - year : Int) ≤ -1 := by omega
    have hage : ((current_year - year : Int) : ℚ) ≤ -1 := by exact_mod_cast hage'
    refine lt_of_lt_of_le ?_ (le_max_right _ _)
    nlinarith

/-- Witness for C3 at concrete inputs: age 10 gives factor `1/2`, age 0 gives
factor `1`, age `-1` exceeds `1`. -/
theorem C3_witness :
    (1 / 2 ≤ recency_factor 2025 2015 ∧ recency_factor 2025 2015 ≤ 1)
    ∧ 1 < recency_factor 2025 2026 :=
  ⟨(C3_recency_factor_bounds 2025 2015).1 (by decide),
   (C3_recency_factor_bounds 2025 2026).2 (by decide)⟩

/-! ## Claim C4 -/

/-- C4 (counterexample): the claim that `get_ai_search_strategies` always
returns a non-empty sequence is false: when the AI service returns the valid
JSON text `[]`, the parsed value is a list, so the function returns it
verbatim — the empty sequence. -/
theorem C4_counterexample :
    get_ai_search_strategies "pergunta" (some "key") (.parsedList []) = [] := rfl

/-- C4 (amended): with no usable API key, or on any failure of the AI call
(exception, undecodable response, or decoded non-list), the function returns
exactly a single-element sequence whose query is the original research
question verbatim with placeholder rationale and topic; but a successfully
parsed JSON list — including the empty list — is returned verbatim, so the
result is non-empty only when the parsed list is. -/
theorem C4_fallback_behaviour (q : String) (k : Option String) (o : AIOutcome) :
    (pyTruthyOpt k = false →
      get_ai_search_strategies q k o = [⟨q, "Busca direta.", "Busca Direta"⟩])
    ∧ (pyTruthyOpt k = true → (o = .error ∨ o = .unparseable ∨ o = .parsedNonList) →
      get_ai_search_strategies q k o = [⟨q, "Falha na IA.", "Busca Direta"⟩])
    ∧ (∀ xs, pyTruthyOpt k = true → o = .parsedList xs →
      get_ai_search_strategies q k o = xs) := by
  refine ⟨?_, ?_, ?_⟩
  · intro h
    simp [get_ai_search_strategies, h]
  · intro h ho
    rcases ho with rfl | rfl | rfl <;> simp [get_ai_search_strategies, h]
  · rintro xs h rfl
    simp [get_ai_search_strategies, h]

/-- Witness for C4 at concrete inputs: missing key and undecodable response
both yield the single-element fallback with the question verbatim. -/
theorem C4_witness :
    get_ai_search_strategies "Pergunta original" none .error =
        [⟨"Pergunta original", "Busca direta.", "Busca Direta"⟩]
    ∧ get_ai_search_strategies "Pergunta original" (some "k") .unparseable =
        [⟨"Pergunta original", "Falha na IA.", "Busca Direta"⟩] :=
  ⟨(C4_fallback_behaviour "Pergunta original" none .error).1 rfl,
   (C4_fallback_behaviour "Pergunta original" (some "k") .unparseable).2.1 (by decide)
     (Or.inr (Or.inl rfl))⟩

/-! ## Lemmas about the adapters' year handling -/

lemma ss_process_none_of_no_year {min_year min_citations : Int} {item : SSItem}
    (h : item.year = none) : ss_process min_year min_citations item = none := by
  simp [ss_process, h]

lemma ss_process_year_ge {min_year min_citations : Int} {item : SSItem} {a : Article}
    (h : ss_process min_year min_citations item = some a) : min_year ≤ a.year := by
  rcases hy : item.year with _ | y
  · rw [ss_process_none_of_no_year hy] at h
    exact absurd h (by simp)
  · simp only [ss_process, hy] at h
    split at h
    · rename_i hc
      rw [Option.some.injEq] at h
      subst h
      exact hc.2.1
    · exact absurd h (by simp)

lemma cr_process_year_ge {min_year : Int} {item : CRItem} {a : Article}
    (h : cr_process min_year item = some a) : min_year ≤ a.year := by
  simp only [cr_process] at h
  split at h
  · rename_i hc
    cases h
    exact hc
  · simp at h

lemma cr_process_none_of_no_created {min_year : Int} {item : CRItem}
    (h : item.created_date_parts = none) (hpos : 0 < min_year) :
    cr_process min_year item = none := by
  simp only [cr_process, h, Option.getD]
  rw [if_neg (by omega)]

lemma arxiv_process_year_ge {current_year min_year : Int} {e : ArxivEntry} {a : Article}
    (h : arxiv_process current_year min_year e = some a) : min_year ≤ a.year := by
  simp only [arxiv_process] at h
  split at h
  · simp at h
  · rename_i hc
    cases h
    exact not_lt.mp hc

lemma arxiv_default_year {current_year min_year : Int} {e : ArxivEntry}
    (h : arxivResolvedYear e = none) :
    arxivYear current_year e = current_year
    ∧ (min_year ≤ current_year →
        (arxiv_process current_year min_year e).isSome = true) := by
  have hy : arxivYear current_year e = current_year := by
    unfold arxivResolvedYear at h
    cases hp : e.published with
    | none => simp [arxivYear, hp]
    | some s =>
      rw [hp] at h
      simp only [] at h
      simp [arxivYear, hp, h]
  refine ⟨hy, fun hle => ?_⟩
  simp only [arxiv_process, hy]
  rw [if_neg (by omega)]
  rfl

/-! ## Claim C2 -/

/-- C2 (counterexample): the claim that every adapter assigns the current
year to an item whose year cannot be resolved (so that it always passes the
year filter) is false for the Semantic Scholar adapter: an item with no
`year` field is dropped outright by the `if year and ...` guard, regardless
of its citation count. -/
theorem C2_counterexample :
    ({ paperId := some "p1", title := some "A Paper", authors := none,
       year := none, venue := none, citationCount := some 50,
       url := some "http://example.org/p1", abstract := none } : SSItem).year = none
    ∧ search_semantic_scholar 2020 0
        (.success
          [{ paperId := some "p1", title := some "A Paper", authors := none,
             year := none, venue := none, citationCount := some 50,
             url := some "http://example.org/p1", abstract := none }]) = [] :=
  ⟨rfl, rfl⟩

/-- C2 (amended): every adapter excludes an item whose resolved year is
strictly below `min_year` (every returned article has `year ≥ min_year`).
The current-year default for unresolvable years holds for the arXiv adapter
(such an entry gets the current year and survives the year filter whenever
`min_year ≤ current_year`), but not for the other two cited adapters: the
Semantic Scholar adapter drops an item with a missing year, and the CrossRef
adapter resolves a missing `created.date-parts` to year 0, dropping the item
whenever `min_year > 0`. -/
theorem C2_year_filter_semantics :
    (∀ (min_year min_citations : Int) (resp : HttpOutcome (List SSItem)) (a : Article),
        a ∈ search_semantic_scholar min_year min_citations resp → min_year ≤ a.year)
    ∧ (∀ (min_year min_citations : Int) (item : SSItem), item.year = none →
        ss_process min_year min_citations item = none)
    ∧ (∀ (min_year : Int) (resp : HttpOutcome (List CRItem)) (a : Article),
        a ∈ search_crossref min_year resp → min_year ≤ a.year)
    ∧ (∀ (min_year : Int) (item : CRItem), item.created_date_parts = none →
        0 < min_year → cr_process min_year item = none)
    ∧ (∀ (current_year min_year : Int) (resp : HttpOutcome (List ArxivEntry))
        (a : Article), a ∈ search_arxiv current_year min_year resp → min_year ≤ a.year)
    ∧ (∀ (current_year min_year : Int) (e : ArxivEntry), arxivResolvedYear e = none →
        arxivYear current_year e = current_year
        ∧ (min_year ≤ current_year →
            (arxiv_process current_year min_year e).isSome = true)) := by
  refine ⟨?_, ?_, ?_, ?_, ?_, ?_⟩
  · rintro minY minC (_ | items) a ha
    · simp [search_semantic_scholar] at ha
    · obtain ⟨item, _, heq⟩ := List.mem_filterMap.mp ha
      exact ss_process_year_ge heq
  · intro minY minC item h
    exact ss_process_none_of_no_year h
  · rintro minY (_ | items) a ha
    · simp [search_crossref] at ha
    · obtain ⟨item, _, heq⟩ := List.mem_filterMap.mp ha
      exact cr_process_year_ge heq
  · intro minY item h hpos
    exact cr_process_none_of_no_created h hpos
  · rintro cy minY (_ | entries) a ha
    · simp [search_arxiv] at ha
    · obtain ⟨e, _, heq⟩ := List.mem_filterMap.mp ha
      exact arxiv_process_year_ge heq
  · intro cy minY e h
    exact arxiv_default_year h

/-- Witness for C2 at concrete inputs: a kept Semantic Scholar article
satisfies the year filter, and an arXiv entry with no published element gets
the current year and survives. -/
theorem C2_witness :
    (2020 : Int) ≤
        ({ id := "ss_p2", title := "Kept Paper", authors := [], year := 2022,
           source := "Semantic Scholar (N/A)", citations := 30, url := "u",
           abstract := "Resumo não disponível", venue := "N/A" } : Article).year
    ∧ arxivYear 2025
        { title := none, authors := [], published := none, summary := none,
          idUrl := none, category := none } = 2025
    ∧ (arxiv_process 2025 2020
        { title := none, authors := [], published := none, summary := none,
          idUrl := none, category := none }).isSome = true := by
  refine ⟨?_, ?_, ?_⟩
  · exact C2_year_filter_semantics.1 2020 10
      (.success
        [{ paperId := some "p2", title := some "Kept Paper", authors := some [],
           year := some 2022, venue := none, citationCount := some 30,
           url := some "u", abstract := none }]) _ (by decide)
  · exact (C2_year_filter_semantics.2.2.2.2.2 2025 2020
      { title := none, authors := [], published := none, summary := none,
        idUrl := none, category := none } rfl).1
  · exact (C2_year_filter_semantics.2.2.2.2.2 2025 2020
      { title := none, authors := [], published := none, summary := none,
        idUrl := none, category := none } rfl).2 (by decide)

/-! ## Lemmas about the ranking sort -/

lemma mem_insertScored {a x : Article} {l : List Article} :
    x ∈ insertScored a l ↔ x = a ∨ x ∈ l := by
  induction l with
  | nil => simp [insertScored]
  | cons b bs ih =>
    simp only [insertScored]
    split
    · simp [List.mem_cons]
    · simp [List.mem_cons, ih]
      tauto

lemma sortedDesc_insertScored {a : Article} {l : List Article}
    (h : List.Pairwise (fun x y => y.relevance_score ≤ x.relevance_score) l) :
    List.Pairwise (fun x y => y.relevance_score ≤ x.relevance_score)
      (insertScored a l) := by
  induction l with
  | nil => simp [insertScored]
  | cons b bs ih =>
    rw [List.pairwise_cons] at h
    obtain ⟨hb, hbs⟩ := h
    simp only [insertScored]
    split
    · rename_i hle
      refine List.Pairwise.cons ?_ (List.Pairwise.cons hb hbs)
      intro y hy
      rcases List.mem_cons.mp hy with rfl | hy'
      · exact hle
      · exact (hb y hy').trans hle
    · rename_i hgt
      refine List.Pairwise.cons ?_ (ih hbs)
      intro y hy
      rcases mem_insertScored.mp hy with rfl | hy'
      · exact le_of_not_le hgt
      · exact hb y hy'

lemma sortedDesc_sortScored (l : List Article) :
    List.Pairwise (fun x y => y.relevance_score ≤ x.relevance_score) (sortScored l) := by
  induction l with
  | nil => simp [sortScored]
  | cons a rest ih => exact sortedDesc_insertScored ih

lemma filter_score_insertScored (a : Article) (l : List Article) (c : ℚ) :
    (insertScored a l).filter (fun x => decide (x.relevance_score = c))
      = (a :: l).filter (fun x => decide (x.relevance_score = c)) := by
  induction l with
  | nil => simp [insertScored]
  | cons b bs ih =>
    simp only [insertScored]
    split
    · rfl
    · rename_i hgt
      have hab : a.relevance_score < b.relevance_score := lt_of_not_le hgt
      by_cases hb : b.relevance_score = c
      · have ha : ¬ a.relevance_score = c := by
          intro h
          rw [h, hb] at hab
          exact lt_irrefl c hab
        simp [List.filter_cons, hb, ha, ih]
      · by_cases ha : a.relevance_score = c
        · simp [List.filter_cons, hb, ha, ih]
        · simp [List.filter_cons, hb, ha, ih]

lemma filter_score_sortScored (l : List Article) (c : ℚ) :
    (sortScored l).filter (fun x => decide (x.relevance_score = c))
      = l.filter (fun x => decide (x.relevance_score = c)) := by
  induction l with
  | nil => rfl
  | cons a rest ih =>
    simp only [sortScored]
    rw [filter_score_insertScored]
    simp only [List.filter_cons]
    split <;> rw [ih]

lemma mem_sortScored {x : Article} {l : List Article} : x ∈ sortScored l ↔ x ∈ l := by
  induction l with
  | nil => simp [sortScored]
  | cons a rest ih => simp [sortScored, mem_insertScored, ih]

/-! ## Claim C8 -/

/-- C8: the ranked sequence returned by `handle_search` is sorted in
non-increasing `relevance_score` order; for every score value the articles
carrying it appear in the same order as in the scored deduplicated input
(stability); and every ranked article's `relevance_score` equals its citation
count times the recency factor. -/
theorem C8_ranked_sorted_stable (arts : List Article) (saved : List String)
    (current_year : Int) :
    List.Pairwise (fun x y => y.relevance_score ≤ x.relevance_score)
        (ranked_unique_articles arts saved current_year)
    ∧ (∀ c : ℚ,
        (ranked_unique_articles arts saved current_year).filter
            (fun x => decide (x.relevance_score = c))
          = ((deduplicate_articles arts saved).map (score_article current_year)).filter
              (fun x => decide (x.relevance_score = c)))
    ∧ (∀ a ∈ ranked_unique_articles arts saved current_year,
        a.relevance_score = (a.citations : ℚ) * recency_factor current_year a.year) := by
  refine ⟨sortedDesc_sortScored _, fun c => filter_score_sortScored _ c, ?_⟩
  intro a ha
  unfold ranked_unique_articles rank_articles at ha
  obtain ⟨b, _, rfl⟩ := List.mem_map.mp (mem_sortScored.mp ha)
  rfl

/-- Witness for C8 at a concrete input: the top-ranked article (citations
100, published in the current year) has score `100 * recency_factor = 100`. -/
theorem C8_witness :
    (⟨"a1", "Pa", [], 2025, "s", 100, "ua", "", "", "", "", 100⟩ : Article).relevance_score
      = (((⟨"a1", "Pa", [], 2025, "s", 100, "ua", "", "", "", "", 100⟩ : Article).citations : ℚ)
          * recency_factor 2025
            (⟨"a1", "Pa", [], 2025, "s", 100, "ua", "", "", "", "", 100⟩ : Article).year) :=
  (C8_ranked_sorted_stable
      [⟨"a1", "Pa", [], 2025, "s", 100, "ua", "", "", "", "", 0⟩] [] 2025).2.2
    _ (by
      have hd : deduplicate_articles
          [⟨"a1", "Pa", [], 2025, "s", 100, "ua", "", "", "", "", 0⟩] [] =
          [⟨"a1", "Pa", [], 2025, "s", 100, "ua", "", "", "", "", 0⟩] := by decide
      unfold ranked_unique_articles rank_articles
      rw [hd]
      simp only [List.map, sortScored, insertScored]
      rw [List.mem_singleton]
      unfold score_article recency_factor
      simp only [Article.mk.injEq]
      norm_num)

/-! ## Claim C9 -/

/-- C9: with the required API key absent (unset), the Web of Science and
CORE adapters return the empty sequence and perform zero outbound HTTP
requests, whatever the network would have answered. -/
theorem C9_missing_key_short_circuit
    (current_year min_year min_citations : Int)
    (wos_responses : List WosResponse) (core_resp : HttpOutcome (List CoreItem)) :
    search_web_of_science none current_year min_year min_citations wos_responses = ([], 0)
    ∧ search_core none current_year min_year core_resp = ([], 0) :=
  ⟨rfl, rfl⟩

/-! ## Claim C10 -/

/-- C10: every article collected by the strategy loop of `handle_search`
comes from some strategy of the list and carries that strategy's *rationale*
in its `topic` field and that strategy's *topic* in its `search_strategy`
field — the field names are crossed relative to the strategy record. -/
theorem C10_strategy_stamping (results : Strategy → List Article)
    (strategies : List Strategy) (a : Article)
    (ha : a ∈ run_strategies results strategies) :
    ∃ s ∈ strategies, ∃ b ∈ results s,
      a = stamp_strategy s b ∧ a.topic = s.rationale ∧ a.search_strategy = s.topic := by
  induction strategies with
  | nil => simp [run_strategies] at ha
  | cons s rest ih =>
    rw [run_strategies] at ha
    split at ha
    · obtain ⟨t, ht, hb⟩ := ih ha
      exact ⟨t, List.mem_cons_of_mem _ ht, hb⟩
    · rcases List.mem_append.mp ha with h | h
      · obtain ⟨b, hb, rfl⟩ := List.mem_map.mp h
        exact ⟨s, List.mem_cons_self _ _, b, hb, rfl, rfl, rfl⟩
      · obtain ⟨t, ht, hb⟩ := ih h
        exact ⟨t, List.mem_cons_of_mem _ ht, hb⟩

/-- Witness for C10 at a concrete input: the article collected under the
strategy `{query := "q", rationale := "R", topic := "T"}` ends up with
`topic = "R"` and `search_strategy = "T"`. -/
theorem C10_witness :
    ∃ s ∈ [({ query := "q", rationale := "R", topic := "T" } : Strategy)],
      ∃ b ∈ (fun (_ : Strategy) =>
          [({ id := "i", title := "t", authors := [], year := 2020, source := "s",
              citations := 0, url := "u", abstract := "", venue := "" } : Article)]) s,
        ({ id := "i", title := "t", authors := [], year := 2020, source := "s",
           citations := 0, url := "u", abstract := "", venue := "",
           topic := "R", search_strategy := "T" } : Article) = stamp_strategy s b
        ∧ ({ id := "i", title := "t", authors := [], year := 2020, source := "s",
             citations := 0, url := "u", abstract := "", venue := "",
             topic := "R", search_strategy := "T" } : Article).topic = s.rationale
        ∧ ({ id := "i", title := "t", authors := [], year := 2020, source := "s",
             citations := 0, url := "u", abstract := "", venue := "",
             topic := "R", search_strategy := "T" } : Article).search_strategy = s.topic :=
  C10_strategy_stamping _ _ _ (by decide)
